import Mathlib

/-!
Verification of the demo-fastify authentication core (src/auth.ts and
src/server.ts), shallowly embedded in Lean 4.

Modelling conventions:
* bcryptjs is modelled as an ideal (collision-free) password hash: a hash
  remembers the password it was produced from, and `compareSync` succeeds
  exactly when the candidate password equals that preimage.
* jsonwebtoken is modelled abstractly: a well-formed token records its
  payload, its embedded expiration timestamp (seconds), and the secret it
  was signed with.  Verification with a different secret models an invalid
  signature; a tampered or non-JWT string is a `malformed` token.
  `jwt.verify` throwing in the source is modelled by the total function
  `jwtVerify` returning `none`.
* Module-level constants of auth.ts (the user list and the JWT secret) are
  threaded explicitly as an `AuthState`; the source never mutates them, so
  handlers that write no state return the state unchanged.
* Time is an explicit `now : Nat` parameter (seconds since epoch).
-/

namespace DemoFastify

/-- Model of a bcryptjs hash: the hash of a password remembers its preimage. -/
structure BcryptHash where
  preimage : String
  deriving DecidableEq, Repr

/-- bcrypt.hashSync(password, rounds): produce the (ideal) hash. -/
def bcryptHashSync (password : String) (_rounds : Nat) : BcryptHash :=
  ⟨password⟩

/-- bcrypt.compareSync(password, hash): true exactly when the password is the
hashed preimage (ideal, collision-free hash). -/
def bcryptCompareSync (password : String) (hash : BcryptHash) : Bool :=
  password == hash.preimage

/-- A group membership record, as in the DemoUser interface of auth.ts. -/
structure Group where
  type : String
  id : Option String
  groupId : Option String
  name : String
  deriving DecidableEq, Repr

/-- The DemoUser interface of auth.ts: public fields only (no password). -/
structure DemoUser where
  id : String
  email : String
  adminScopes : List String
  role : String
  groups : List Group
  deriving DecidableEq, Repr

/-- An entry of the in-memory users array of auth.ts (includes the hash). -/
structure StoredUser where
  id : String
  email : String
  password : BcryptHash
  adminScopes : List String
  role : String
  groups : List Group
  deriving DecidableEq, Repr

/-- The demo users array seeded at the top of auth.ts. -/
def demoUsers : List StoredUser :=
  [ { id := "user-1"
      email := "admin@example.com"
      password := bcryptHashSync "password123" 10
      adminScopes := ["autojoin"]
      role := "admin"
      groups := [ { type := "team", id := some "team-1", groupId := none, name := "Engineering" },
                  { type := "organization", id := some "org-1", groupId := none, name := "Acme Corp" } ] },
    { id := "user-2"
      email := "user@example.com"
      password := bcryptHashSync "userpass" 10
      adminScopes := []
      role := "user"
      groups := [ { type := "team", id := some "team-1", groupId := none, name := "Engineering" } ] } ]

/-- The JWT payload signed by createSessionJWT.  `adminScopes` is optional at
this layer: a legacy token may have been signed without it. -/
structure JWTPayload where
  userId : String
  email : String
  adminScopes : Option (List String)
  role : String
  groups : List Group
  deriving DecidableEq, Repr

/-- Abstract model of a JWT string: either a well-formed signed token
(carrying its payload, embedded expiration, and signing secret) or a
malformed string (non-JWT bytes, or a token whose signature no longer
validates after tampering). -/
inductive Token where
  | signed (payload : JWTPayload) (exp : Nat) (secret : String)
  | malformed (raw : String)
  deriving DecidableEq, Repr

/-- Seconds in the jsonwebtoken expiresIn span "1d". -/
def oneDayInSeconds : Nat := 86400

/-- jwt.sign(payload, secret, \x7bexpiresIn: "1d"\x7d): embed payload with
expiration now + 1 day, signed with the given secret. -/
def jwtSign (payload : JWTPayload) (secret : String) (now : Nat) : Token :=
  Token.signed payload (now + oneDayInSeconds) secret

/-- jwt.verify(token, secret): `none` models a throw — on a malformed token,
a signature made with a different secret, or an expiration not in the
future (jsonwebtoken rejects when now ≥ exp). -/
def jwtVerify (token : Token) (secret : String) (now : Nat) : Option JWTPayload :=
  match token with
  | Token.malformed _ => none
  | Token.signed payload e s =>
    if s ≠ secret then none
    else if e ≤ now then none
    else some payload

/-- The module-level state of auth.ts: the users array and JWT_SECRET.
Both are `const` in the source; handlers never mutate them. -/
structure AuthState where
  users : List StoredUser
  jwtSecret : String
  deriving DecidableEq, Repr

/-- auth.ts at startup with JWT_SECRET unset in the environment:
the demo fallback secret and the seeded users. -/
def initialAuthState : AuthState :=
  { users := demoUsers, jwtSecret := "demo-secret-key" }

/-- createSessionJWT(user) from auth.ts. -/
def createSessionJWT (st : AuthState) (user : DemoUser) (now : Nat) : Token :=
  jwtSign
    { userId := user.id
      email := user.email
      adminScopes := some user.adminScopes
      role := user.role
      groups := user.groups }
    st.jwtSecret now

/-- verifySessionJWT(token) from auth.ts: decode with JWT_SECRET, defaulting
a missing adminScopes entry to []; any verification failure yields `none`
(the catch block of the source). -/
def verifySessionJWT (st : AuthState) (token : Token) (now : Nat) : Option DemoUser :=
  match jwtVerify token st.jwtSecret now with
  | none => none
  | some decoded =>
    some { id := decoded.userId
           email := decoded.email
           adminScopes := decoded.adminScopes.getD []
           role := decoded.role
           groups := decoded.groups }

/-- The public projection of a stored user (drops the password hash);
the record literal returned by authenticateUser and getDemoUsers. -/
def toDemoUser (u : StoredUser) : DemoUser :=
  { id := u.id
    email := u.email
    adminScopes := u.adminScopes
    role := u.role
    groups := u.groups }

/-- authenticateUser(email, password) from auth.ts. -/
def authenticateUser (st : AuthState) (email password : String) : Option DemoUser :=
  match st.users.find? (fun u => u.email == email) with
  | none => none
  | some user =>
    if ! bcryptCompareSync password user.password then none
    else some (toDemoUser user)

/-- Result of request.unsignCookie from @fastify/cookie: validity flag and,
when valid, the unsigned value (here already parsed as a token; the
empty-string value, which the source treats as absent via JS falsiness, is
represented as `Token.malformed ""`). -/
structure UnsignResult where
  valid : Bool
  value : Option Token

/-- The parts of a FastifyRequest that getCurrentUser reads:
`(request as any).signedCookies?.session`, `request.cookies?.session`
(the raw cookie string), and the optional unsignCookie method. -/
structure FastifyRequest where
  signedSession : Option Token
  cookieSession : Option String
  unsignCookie : Option (String → UnsignResult)

/-- The session-token resolution performed inside getCurrentUser, as a
standalone function (spec side of claim C5): the token found in
signedCookies, or else the validly-unsigned raw session cookie. -/
def resolveSessionToken (req : FastifyRequest) : Option Token :=
  match req.signedSession with
  | some t => some t
  | none =>
    match req.cookieSession with
    | none => none
    | some cookieValue =>
      match req.unsignCookie with
      | none => none
      | some unsign =>
        let r := unsign cookieValue
        if r.valid then r.value else none

/-- getCurrentUser(request) from auth.ts, written as the source is: resolve
the token from signedCookies, else unsign the raw cookie; return null when
no token, else verifySessionJWT(token). -/
def getCurrentUser (st : AuthState) (req : FastifyRequest) (now : Nat) : Option DemoUser :=
  let token := req.signedSession
  let token :=
    match token with
    | some t => some t
    | none =>
      match req.cookieSession with
      | none => none
      | some cookieValue =>
        match req.unsignCookie with
        | none => none
        | some unsign =>
          let r := unsign cookieValue
          if r.valid then r.value else none
  match token with
  | none => none
  | some t => verifySessionJWT st t now

/-- Outcome of the requireAuth preHandler: either the reply was sent with a
status and error body (short-circuit), or the user was attached to the
request and the handler chain continues. -/
inductive GuardResult where
  | unauthorized (status : Nat) (error : String)
  | allowed (user : DemoUser)
  deriving DecidableEq, Repr

/-- requireAuth(request, reply) from auth.ts. -/
def requireAuth (st : AuthState) (req : FastifyRequest) (now : Nat) : GuardResult :=
  match getCurrentUser st req now with
  | none => GuardResult.unauthorized 401 "Authentication required"
  | some user => GuardResult.allowed user

/-- getDemoUsers() from auth.ts: the users array with the password dropped. -/
def getDemoUsers (st : AuthState) : List DemoUser :=
  st.users.map fun user =>
    { id := user.id
      email := user.email
      adminScopes := user.adminScopes
      role := user.role
      groups := user.groups }

/-- The request body of POST /api/auth/login: both fields optional. -/
structure LoginBody where
  email : Option String
  password : Option String
  deriving DecidableEq, Repr

/-- JS truthiness of an optional string: undefined and "" are falsy. -/
def truthyStr : Option String → Bool
  | none => false
  | some s => ! s.isEmpty

/-- The cookie options passed to reply.setCookie in server.ts (maxAge is the
numeric value 24*60*60*1000 written in the source, commented "1 day"). -/
structure CookieOptions where
  httpOnly : Bool
  secure : Bool
  sameSite : String
  maxAge : Nat
  deriving DecidableEq, Repr

/-- A Set-Cookie effect on the reply. -/
structure SetCookie where
  name : String
  value : Token
  options : CookieOptions
  deriving DecidableEq, Repr

/-- The public user fields of the login success payload in server.ts
(the handler returns id, email, role, groups). -/
structure PublicUserPayload where
  id : String
  email : String
  role : String
  groups : List Group
  deriving DecidableEq, Repr

/-- The outward result of POST /api/auth/login: 400, 401 (neither carries a
cookie), or 200 with the session cookie and the success payload. -/
inductive LoginResponse where
  | badRequest (error : String)
  | unauthorized (error : String)
  | success (cookie : SetCookie) (user : PublicUserPayload)
  deriving DecidableEq, Repr

/-- The POST /api/auth/login handler of server.ts.  `isProduction` models
process.env.NODE_ENV === "production".  The `!email || !password` guard of
the source uses JS truthiness, so an empty string counts as missing. -/
def loginHandler (st : AuthState) (body : LoginBody) (isProduction : Bool)
    (now : Nat) : LoginResponse :=
  if ! truthyStr body.email || ! truthyStr body.password then
    LoginResponse.badRequest "Email and password required"
  else
    match authenticateUser st (body.email.getD "") (body.password.getD "") with
    | none => LoginResponse.unauthorized "Invalid credentials"
    | some user =>
      LoginResponse.success
        { name := "session"
          value := createSessionJWT st user now
          options := { httpOnly := true
                       secure := isProduction
                       sameSite := "lax"
                       maxAge := 24 * 60 * 60 * 1000 } }
        { id := user.id
          email := user.email
          role := user.role
          groups := user.groups }

/-- The outward result of POST /api/auth/logout: which cookie was cleared
and the JSON body. -/
structure LogoutResponse where
  clearedCookie : String
  success : Bool
  deriving DecidableEq, Repr

/-- The POST /api/auth/logout handler of server.ts: clears the session
cookie and returns success.  It performs no write to the auth module's
state, which the explicit-state embedding renders as returning the state
unchanged. -/
def logoutHandler (st : AuthState) : AuthState × LogoutResponse :=
  (st, { clearedCookie := "session", success := true })

/-- A token that verifySessionJWT must reject: malformed bytes (which also
covers tampering that breaks the signature), a signature made with a
different secret, or an embedded expiration that is not in the future. -/
def invalidToken (st : AuthState) (token : Token) (now : Nat) : Bool :=
  match token with
  | Token.malformed _ => true
  | Token.signed _ e s => s != st.jwtSecret || decide (e ≤ now)

/-- Claim C2: verifying a freshly signed session token before its 1-day
expiry, with the same process-wide secret, returns claims equal to the
input claims: verifySessionJWT (createSessionJWT user) = user. -/
theorem sign_verify_roundtrip (st : AuthState) (user : DemoUser) (t1 t2 : Nat)
    (h : t2 < t1 + oneDayInSeconds) :
    verifySessionJWT st (createSessionJWT st user t1) t2 = some user := by
  cases user
  simp [verifySessionJWT, createSessionJWT, jwtSign, jwtVerify, Nat.not_le.mpr h]

/-- Witness for C2 at a concrete user and concrete signing/verifying times. -/
theorem sign_verify_roundtrip_witness :
    100 < 0 + oneDayInSeconds ∧
    verifySessionJWT initialAuthState
        (createSessionJWT initialAuthState
          ⟨"user-1", "admin@example.com", ["autojoin"], "admin", []⟩ 0) 100 =
      some ⟨"user-1", "admin@example.com", ["autojoin"], "admin", []⟩ :=
  ⟨by decide, sign_verify_roundtrip initialAuthState _ 0 100 (by decide)⟩

/-- Claim C3: verifySessionJWT (a total function into Option, mirroring the
catch-all of the source, so it never throws) returns `none` on every
malformed token, every token signed with a different secret, and every
token whose embedded expiration has passed. -/
theorem verifySessionJWT_rejects_invalid (st : AuthState) (token : Token)
    (now : Nat) (h : invalidToken st token now = true) :
    verifySessionJWT st token now = none := by
  cases token with
  | malformed raw => rfl
  | signed p e s =>
    simp only [invalidToken, Bool.or_eq_true, bne_iff_ne, decide_eq_true_eq] at h
    rcases h with h | h
    · simp [verifySessionJWT, jwtVerify, h]
    · by_cases hs : s = st.jwtSecret
      · simp [verifySessionJWT, jwtVerify, hs, h]
      · simp [verifySessionJWT, jwtVerify, hs]

/-- Witness for C3: a malformed token, a token signed with a different
secret, and an expired token all verify to `none`. -/
theorem verifySessionJWT_rejects_invalid_witness :
    verifySessionJWT initialAuthState (Token.malformed "garbage") 0 = none ∧
    verifySessionJWT initialAuthState
      (Token.signed ⟨"user-1", "admin@example.com", none, "admin", []⟩ 100 "other-secret") 0 = none ∧
    verifySessionJWT initialAuthState
      (Token.signed ⟨"user-1", "admin@example.com", none, "admin", []⟩ 100 "demo-secret-key") 200 = none :=
  ⟨verifySessionJWT_rejects_invalid initialAuthState _ 0 (by decide),
   verifySessionJWT_rejects_invalid initialAuthState _ 0 (by decide),
   verifySessionJWT_rejects_invalid initialAuthState _ 200 (by decide)⟩

/-- Claim C10: a token accepted by verifySessionJWT whose payload carries no
adminScopes entry (a legacy token) decodes with the empty list substituted,
so every decoded session exposes a usable adminScopes list. -/
theorem verifySessionJWT_defaults_adminScopes (st : AuthState) (p : JWTPayload)
    (e now : Nat) (hp : p.adminScopes = none) (hnow : now < e) :
    verifySessionJWT st (Token.signed p e st.jwtSecret) now =
      some { id := p.userId, email := p.email, adminScopes := [],
             role := p.role, groups := p.groups } := by
  simp [verifySessionJWT, jwtVerify, Nat.not_le.mpr hnow, hp]

/-- Witness for C10 at a concrete legacy payload without adminScopes. -/
theorem verifySessionJWT_defaults_adminScopes_witness :
    (⟨"user-9", "legacy@example.com", none, "user", []⟩ : JWTPayload).adminScopes = none ∧
    (0:Nat) < 10 ∧
    verifySessionJWT initialAuthState
        (Token.signed ⟨"user-9", "legacy@example.com", none, "user", []⟩ 10
          initialAuthState.jwtSecret) 0 =
      some ⟨"user-9", "legacy@example.com", [], "user", []⟩ :=
  ⟨rfl, by decide,
   verifySessionJWT_defaults_adminScopes initialAuthState _ 10 0 rfl (by decide)⟩

/-- Claim C8: logout always clears the session cookie and returns success,
and changes no server-side state: the auth state is returned unchanged, so
any token issued before logout verifies to exactly the same result
afterward. -/
theorem logout_clears_cookie_preserves_state (st : AuthState) :
    (logoutHandler st).2.clearedCookie = "session" ∧
    (logoutHandler st).2.success = true ∧
    (logoutHandler st).1 = st ∧
    ∀ token now, verifySessionJWT (logoutHandler st).1 token now =
      verifySessionJWT st token now :=
  ⟨rfl, rfl, rfl, fun _ _ => rfl⟩

/-- Claim C4: requireAuth short-circuits with status 401 and the fixed error
body exactly when getCurrentUser yields none; otherwise it attaches the
resolved claims unchanged and lets the handler continue. -/
theorem requireAuth_spec (st : AuthState) (req : FastifyRequest) (now : Nat) :
    (requireAuth st req now = GuardResult.unauthorized 401 "Authentication required" ↔
      getCurrentUser st req now = none) ∧
    ∀ u, getCurrentUser st req now = some u →
      requireAuth st req now = GuardResult.allowed u := by
  constructor
  · constructor
    · intro h
      cases hg : getCurrentUser st req now with
      | none => rfl
      | some u => simp [requireAuth, hg] at h
    · intro h
      simp [requireAuth, h]
  · intro u h
    simp [requireAuth, h]

/-- Witness for C4: a request with no cookie at all is rejected with 401. -/
theorem requireAuth_spec_witness :
    requireAuth initialAuthState ⟨none, none, none⟩ 0 =
      GuardResult.unauthorized 401 "Authentication required" :=
  (requireAuth_spec initialAuthState ⟨none, none, none⟩ 0).1.mpr rfl

/-- Claim C5: getCurrentUser resolves the session cookie's token; when no
token is resolved it returns none without any decode, and when a token is
resolved it returns the result of verifySessionJWT on it unchanged. -/
theorem getCurrentUser_spec (st : AuthState) (req : FastifyRequest) (now : Nat) :
    (resolveSessionToken req = none → getCurrentUser st req now = none) ∧
    ∀ t, resolveSessionToken req = some t →
      getCurrentUser st req now = verifySessionJWT st t now := by
  have hg : getCurrentUser st req now =
      match resolveSessionToken req with
      | none => none
      | some t => verifySessionJWT st t now := rfl
  constructor
  · intro h
    rw [hg, h]
  · intro t h
    rw [hg, h]

/-- Witness for C5: a request carrying a (malformed) token in signedCookies
resolves it and hands it to verifySessionJWT. -/
theorem getCurrentUser_spec_witness :
    resolveSessionToken ⟨some (Token.malformed "xyz"), none, none⟩ =
      some (Token.malformed "xyz") ∧
    getCurrentUser initialAuthState ⟨some (Token.malformed "xyz"), none, none⟩ 0 =
      verifySessionJWT initialAuthState (Token.malformed "xyz") 0 :=
  ⟨rfl, (getCurrentUser_spec initialAuthState ⟨some (Token.malformed "xyz"), none, none⟩ 0).2
    (Token.malformed "xyz") rfl⟩

/-- Claim C9: getDemoUsers returns one record per stored user, in store
order; each record keeps id, email, adminScopes, role and groups equal to
the stored record's fields, and its type carries no password hash field. -/
theorem getDemoUsers_spec (st : AuthState) :
    (getDemoUsers st).length = st.users.length ∧
    ∀ i : Nat, i < st.users.length →
      ∃ u d, st.users[i]? = some u ∧ (getDemoUsers st)[i]? = some d ∧
        d.id = u.id ∧ d.email = u.email ∧ d.adminScopes = u.adminScopes ∧
        d.role = u.role ∧ d.groups = u.groups := by
  constructor
  · simp [getDemoUsers]
  · intro i hi
    refine ⟨st.users[i], toDemoUser st.users[i], ?_, ?_, rfl, rfl, rfl, rfl, rfl⟩
    · exact List.getElem?_eq_getElem hi
    · simp [getDemoUsers, List.getElem?_eq_getElem hi, toDemoUser]

/-- Witness for C9 at the first stored demo user. -/
theorem getDemoUsers_spec_witness :
    (0:Nat) < initialAuthState.users.length ∧
    ∃ u d, initialAuthState.users[0]? = some u ∧
      (getDemoUsers initialAuthState)[0]? = some d ∧
      d.id = u.id ∧ d.email = u.email ∧ d.adminScopes = u.adminScopes ∧
      d.role = u.role ∧ d.groups = u.groups :=
  ⟨by decide, (getDemoUsers_spec initialAuthState).2 0 (by decide)⟩

/-- Soundness half of login lookup: a successful authenticateUser comes from
a stored record with the given email and a matching password hash. -/
theorem authenticateUser_some_sound (st : AuthState) (email password : String)
    (d : DemoUser) (h : authenticateUser st email password = some d) :
    ∃ u : StoredUser, u ∈ st.users ∧ u.email = email ∧
      bcryptCompareSync password u.password = true ∧ d = toDemoUser u := by
  unfold authenticateUser at h
  cases hf : st.users.find? (fun u => u.email == email) with
  | none =>
    rw [hf] at h
    cases h
  | some u =>
    rw [hf] at h
    cases hc : bcryptCompareSync password u.password with
    | false =>
      simp [hc] at h
    | true =>
      simp [hc] at h
      refine ⟨u, List.mem_of_find?_eq_some hf, ?_, hc, h.symm⟩
      have := List.find?_some hf
      simpa using this

/-- Completeness half of login lookup: with pairwise-distinct stored emails,
a stored record with the given email and matching password makes
authenticateUser return exactly its public projection. -/
theorem authenticateUser_some_complete (st : AuthState) (email password : String)
    (u : StoredUser) (hnd : (st.users.map StoredUser.email).Nodup)
    (hu : u ∈ st.users) (he : u.email = email)
    (hc : bcryptCompareSync password u.password = true) :
    authenticateUser st email password = some (toDemoUser u) := by
  have hfind : st.users.find? (fun v => v.email == email) = some u := by
    cases hf : st.users.find? (fun v => v.email == email) with
    | none =>
      exfalso
      have := List.find?_eq_none.mp hf u hu
      simp [he] at this
    | some w =>
      have hw : w ∈ st.users := List.mem_of_find?_eq_some hf
      have hwe : w.email = email := by simpa using List.find?_some hf
      have hwu : w = u := List.inj_on_of_nodup_map hnd hw hu (by rw [hwe, he])
      rw [hwu]
  unfold authenticateUser
  rw [hfind]
  simp [hc]

/-- Claim C1: authenticateUser returns the (public projection of the) user
record whose email equals the given email iff such a record exists in the
store and the password matches its stored hash; in every other case it
returns none, so unknown-email and wrong-password failures are outwardly
identical. -/
theorem authenticateUser_spec (email password : String) :
    (∀ d : DemoUser, authenticateUser initialAuthState email password = some d ↔
      ∃ u : StoredUser, u ∈ initialAuthState.users ∧ u.email = email ∧
        bcryptCompareSync password u.password = true ∧ d = toDemoUser u) ∧
    (authenticateUser initialAuthState email password = none ↔
      ¬ ∃ u : StoredUser, u ∈ initialAuthState.users ∧ u.email = email ∧
        bcryptCompareSync password u.password = true) := by
  have hnd : (initialAuthState.users.map StoredUser.email).Nodup := by decide
  constructor
  · intro d
    constructor
    · exact authenticateUser_some_sound initialAuthState email password d
    · rintro ⟨u, hu, he, hc, hd⟩
      rw [hd]
      exact authenticateUser_some_complete initialAuthState email password u hnd hu he hc
  · constructor
    · intro h
      rintro ⟨u, hu, he, hc⟩
      have hs := authenticateUser_some_complete initialAuthState email password u hnd hu he hc
      rw [hs] at h
      cases h
    · intro h
      cases ha : authenticateUser initialAuthState email password with
      | none => rfl
      | some d =>
        exfalso
        obtain ⟨u, hu, he, hc, _⟩ :=
          authenticateUser_some_sound initialAuthState email password d ha
        exact h ⟨u, hu, he, hc⟩

/-- Witness for C1: logging in with the first demo user's email and correct
password returns that user's public record. -/
theorem authenticateUser_spec_witness :
    authenticateUser initialAuthState "admin@example.com" "password123" =
      some ⟨"user-1", "admin@example.com", ["autojoin"], "admin",
        [⟨"team", some "team-1", none, "Engineering"⟩,
         ⟨"organization", some "org-1", none, "Acme Corp"⟩]⟩ :=
  ((authenticateUser_spec "admin@example.com" "password123").1 _).mpr
    ⟨⟨"user-1", "admin@example.com", bcryptHashSync "password123" 10, ["autojoin"], "admin",
       [⟨"team", some "team-1", none, "Engineering"⟩,
        ⟨"organization", some "org-1", none, "Acme Corp"⟩]⟩,
     by decide, rfl, by decide, rfl⟩

/-- Counterexample to C6 as stated: with the email field present but equal
to the empty string (and a present password), the source's JS-truthiness
guard answers 400, not the 401 the claim requires for a present-but-failing
credential pair. -/
theorem login_emptyEmail_counterexample :
    loginHandler initialAuthState ⟨some "", some "password123"⟩ false 0 =
      LoginResponse.badRequest "Email and password required" ∧
    loginHandler initialAuthState ⟨some "", some "password123"⟩ false 0 ≠
      LoginResponse.unauthorized "Invalid credentials" :=
  ⟨rfl, by decide⟩

/-- Claim C6 (amended): a missing OR EMPTY email or password field yields
400; present non-empty fields with failing authentication yield 401 with
the generic message and no cookie (the 401 response carries none by
construction); successful authentication yields the success payload with
the public user fields and a session cookie holding a freshly signed
token. -/
theorem loginHandler_amended (st : AuthState) (body : LoginBody) (isProd : Bool)
    (now : Nat) :
    ((truthyStr body.email = false ∨ truthyStr body.password = false) →
      loginHandler st body isProd now =
        LoginResponse.badRequest "Email and password required") ∧
    ∀ email password, body.email = some email → body.password = some password →
      email ≠ "" → password ≠ "" →
      ((authenticateUser st email password = none →
          loginHandler st body isProd now =
            LoginResponse.unauthorized "Invalid credentials") ∧
       ∀ u, authenticateUser st email password = some u →
          loginHandler st body isProd now =
            LoginResponse.success
              { name := "session"
                value := createSessionJWT st u now
                options := { httpOnly := true, secure := isProd, sameSite := "lax",
                             maxAge := 24 * 60 * 60 * 1000 } }
              { id := u.id, email := u.email, role := u.role, groups := u.groups }) := by
  constructor
  · intro h
    have hg : (! truthyStr body.email || ! truthyStr body.password) = true := by
      rcases h with h | h <;> simp [h]
    simp [loginHandler, hg]
  · intro email password he hp hne hnp
    have hie : email.isEmpty = false := by
      cases hq : email.isEmpty with
      | false => rfl
      | true => exact absurd ((String.isEmpty_iff email).mp hq) hne
    have hip : password.isEmpty = false := by
      cases hq : password.isEmpty with
      | false => rfl
      | true => exact absurd ((String.isEmpty_iff password).mp hq) hnp
    have hte : truthyStr (some email) = true := by simp [truthyStr, hie]
    have htp : truthyStr (some password) = true := by simp [truthyStr, hip]
    constructor
    · intro han
      simp [loginHandler, hte, htp, he, hp, han]
    · intro u han
      simp [loginHandler, hte, htp, he, hp, han]

/-- Witness for C6 (amended): a wrong password for a known email gives the
generic 401. -/
theorem loginHandler_amended_witness :
    authenticateUser initialAuthState "admin@example.com" "wrong" = none ∧
    loginHandler initialAuthState ⟨some "admin@example.com", some "wrong"⟩ false 0 =
      LoginResponse.unauthorized "Invalid credentials" :=
  ⟨by decide,
   ((loginHandler_amended initialAuthState ⟨some "admin@example.com", some "wrong"⟩ false 0).2
      "admin@example.com" "wrong" rfl rfl (by decide) (by decide)).1 (by decide)⟩

/-- Claim C7: every successful login sets a cookie named "session" that is
http-only, sameSite lax, secure exactly in production, carries the
1-day maxAge value written in the source (24*60*60*1000), and holds a token
freshly signed for the authenticated user (whose embedded expiry is
1 day after signing). -/
theorem login_cookie_attributes (st : AuthState) (body : LoginBody) (isProd : Bool)
    (now : Nat) (c : SetCookie) (p : PublicUserPayload)
    (h : loginHandler st body isProd now = LoginResponse.success c p) :
    c.name = "session" ∧ c.options.httpOnly = true ∧ c.options.sameSite = "lax" ∧
    c.options.secure = isProd ∧ c.options.maxAge = 24 * 60 * 60 * 1000 ∧
    ∃ u, authenticateUser st (body.email.getD "") (body.password.getD "") = some u ∧
      c.value = createSessionJWT st u now := by
  unfold loginHandler at h
  by_cases hg : (! truthyStr body.email || ! truthyStr body.password) = true
  · rw [if_pos hg] at h
    simp at h
  · rw [if_neg hg] at h
    cases ha : authenticateUser st (body.email.getD "") (body.password.getD "") with
    | none =>
      rw [ha] at h
      simp at h
    | some u =>
      rw [ha] at h
      simp at h
      obtain ⟨h1, _⟩ := h
      subst h1
      exact ⟨rfl, rfl, rfl, rfl, rfl, u, rfl, rfl⟩

/-- The cookie set by the witness login below. -/
def witnessCookie : SetCookie :=
  { name := "session"
    value := Token.signed
      ⟨"user-1", "admin@example.com", some ["autojoin"], "admin",
        [⟨"team", some "team-1", none, "Engineering"⟩,
         ⟨"organization", some "org-1", none, "Acme Corp"⟩]⟩
      86400 "demo-secret-key"
    options := ⟨true, true, "lax", 86400000⟩ }

/-- The success payload of the witness login below. -/
def witnessPayload : PublicUserPayload :=
  ⟨"user-1", "admin@example.com", "admin",
    [⟨"team", some "team-1", none, "Engineering"⟩,
     ⟨"organization", some "org-1", none, "Acme Corp"⟩]⟩

/-- Witness for C7: the concrete successful production login of the first
demo user sets exactly the specified cookie. -/
theorem login_cookie_attributes_witness :
    loginHandler initialAuthState ⟨some "admin@example.com", some "password123"⟩ true 0 =
      LoginResponse.success witnessCookie witnessPayload ∧
    (witnessCookie.name = "session" ∧ witnessCookie.options.httpOnly = true ∧
      witnessCookie.options.sameSite = "lax" ∧ witnessCookie.options.secure = true ∧
      witnessCookie.options.maxAge = 24 * 60 * 60 * 1000 ∧
      ∃ u, authenticateUser initialAuthState "admin@example.com" "password123" = some u ∧
        witnessCookie.value = createSessionJWT initialAuthState u 0) :=
  ⟨by decide,
   login_cookie_attributes initialAuthState ⟨some "admin@example.com", some "password123"⟩
     true 0 witnessCookie witnessPayload (by decide)⟩

end DemoFastify
